import Mathlib

/-
Verification of the risk-scoring core of the predict-and-prevail repository.

The model embeds src/src/lib/riskModel.ts (the CallFeatures record, the
issueTypeWeights table and predictRiskScore) and the derived classification
thresholds used by the dashboard callers (src/src/components/Dashboard.tsx,
generateMockCall).  JavaScript numbers are modelled as rationals; the
JavaScript expression weights[key] || 0.1 is modelled faithfully, including
its falsy fallback when the looked-up weight is 0.
-/

/-- Input features of the risk model (interface CallFeatures in riskModel.ts). -/
structure CallFeatures where
  wait_time : ℚ
  issue_type : String
  charge : ℚ
  status : String

/-- The fixed issue-type weight table (const issueTypeWeights in riskModel.ts);
none for keys absent from the record. -/
def issueTypeWeights (s : String) : Option ℚ :=
  if s = "Insurance Claim Denial" then some (4/10)
  else if s = "Bill Payment Query" then some (1/10)
  else if s = "Coverage Verification" then some (2/10)
  else if s = "Prior Authorization" then some (3/10)
  else if s = "Copay Questions" then some (1/10)
  else if s = "Billing Statement Error" then some (35/100)
  else if s = "Insurance Network Query" then some (25/100)
  else if s = "Prescription Coverage" then some (2/10)
  else if s = "EOB Explanation" then some (15/100)
  else if s = "Payment Plan Setup" then some (1/10)
  else none

/-- The issue term of the score: issueTypeWeights[features.issue_type] || 0.1 in
riskModel.ts.  The JavaScript || also replaces a stored weight of 0 (falsy) by
0.1; no stored weight is 0, but the fallback is modelled as written. -/
def issueComponent (s : String) : ℚ :=
  match issueTypeWeights s with
  | some w => if w = 0 then 1/10 else w
  | none => 1/10

/-- The status term of the score (the if/else-if chain in riskModel.ts). -/
def statusComponent (s : String) : ℚ :=
  if s = "Denied" then 3/10
  else if s = "Pending" then 1/10
  else 0

/-- predictRiskScore from riskModel.ts: the running sum of the four
components, clamped above by 1 with Math.min. -/
def predictRiskScore (f : CallFeatures) : ℚ :=
  let score : ℚ := 0
  let score := score + min (f.wait_time / 600) 1 * (3/10)
  let score := score + issueComponent f.issue_type
  let score := score + min (f.charge / 1000) 1 * (3/10)
  let score := score + statusComponent f.status
  min score 1

/-- Priority tier derived from a score by the dashboard callers
(Dashboard.tsx, generateMockCall). -/
def priority (p : ℚ) : String :=
  if p > 7/10 then "High" else if p > 4/10 then "Medium" else "Low"

/-- Predicted action derived from a score by the dashboard callers
(Dashboard.tsx, generateMockCall). -/
def predicted_action (p : ℚ) : String :=
  if p > 7/10 then "Priority Routing" else if p > 4/10 then "Offer Callback" else "Continue Queue"

/-- Reference issue weight w from the specification table: the ten listed
strings map to their table weights, every other string to 0.1. -/
def specIssueWeight (s : String) : ℚ :=
  if s = "Insurance Claim Denial" then 4/10
  else if s = "Bill Payment Query" then 1/10
  else if s = "Coverage Verification" then 2/10
  else if s = "Prior Authorization" then 3/10
  else if s = "Copay Questions" then 1/10
  else if s = "Billing Statement Error" then 35/100
  else if s = "Insurance Network Query" then 25/100
  else if s = "Prescription Coverage" then 2/10
  else if s = "EOB Explanation" then 15/100
  else if s = "Payment Plan Setup" then 1/10
  else 1/10

/-- Reference status weight s from the specification: Denied 0.3,
Pending 0.1, anything else 0. -/
def specStatusWeight (s : String) : ℚ :=
  if s = "Denied" then 3/10 else if s = "Pending" then 1/10 else 0

/-- The reference formula of the specification:
min( min(wait/600,1)*0.3 + w(issue) + min(charge/1000,1)*0.3 + s(status), 1 ). -/
def specRiskFormula (f : CallFeatures) : ℚ :=
  min (min (f.wait_time / 600) 1 * (3/10) + specIssueWeight f.issue_type
    + min (f.charge / 1000) 1 * (3/10) + specStatusWeight f.status) 1

/-- The score computed as predictRiskScore does, but with an explicit
weight w substituted for the issue term. -/
def scoreWithIssueWeight (w : ℚ) (f : CallFeatures) : ℚ :=
  min (min (f.wait_time / 600) 1 * (3/10) + w
    + min (f.charge / 1000) 1 * (3/10) + statusComponent f.status) 1

set_option maxHeartbeats 1000000 in
theorem issueComponent_eq_spec (s : String) : issueComponent s = specIssueWeight s := by
  unfold issueComponent issueTypeWeights specIssueWeight
  split_ifs <;> norm_num

theorem statusComponent_eq_spec (s : String) : statusComponent s = specStatusWeight s := rfl

theorem issueComponent_ge_tenth (s : String) : 1/10 ≤ issueComponent s := by
  unfold issueComponent issueTypeWeights
  split_ifs <;> norm_num

theorem statusComponent_nonneg (s : String) : 0 ≤ statusComponent s := by
  unfold statusComponent
  split_ifs <;> norm_num

/-- Claim C1: for every input features record, predictRiskScore equals the
reference formula of the specification (weight table with default 0.1 for the
issue term, Denied 0.3 / Pending 0.1 / else 0 for the status term, clamp at 1). -/
theorem predictRiskScore_eq_specRiskFormula (f : CallFeatures) :
    predictRiskScore f = specRiskFormula f := by
  unfold predictRiskScore specRiskFormula
  rw [issueComponent_eq_spec, statusComponent_eq_spec]
  ring_nf

theorem tenth_le_predictRiskScore (f : CallFeatures)
    (hw : 0 ≤ f.wait_time) (hc : 0 ≤ f.charge) :
    1/10 ≤ predictRiskScore f := by
  unfold predictRiskScore
  apply le_min _ (by norm_num)
  have h1 : (0:ℚ) ≤ min (f.wait_time / 600) 1 * (3/10) := by
    apply mul_nonneg _ (by norm_num)
    exact le_min (div_nonneg hw (by norm_num)) zero_le_one
  have h2 := issueComponent_ge_tenth f.issue_type
  have h3 : (0:ℚ) ≤ min (f.charge / 1000) 1 * (3/10) := by
    apply mul_nonneg _ (by norm_num)
    exact le_min (div_nonneg hc (by norm_num)) zero_le_one
  have h4 := statusComponent_nonneg f.status
  linarith

theorem predictRiskScore_le_one (f : CallFeatures) : predictRiskScore f ≤ 1 := by
  unfold predictRiskScore
  exact min_le_right _ _

/-- Claim C2: for non-negative wait_time and charge, the score lies in [0, 1],
for every issue_type and status string. -/
theorem predictRiskScore_bounds (f : CallFeatures)
    (hw : 0 ≤ f.wait_time) (hc : 0 ≤ f.charge) :
    0 ≤ predictRiskScore f ∧ predictRiskScore f ≤ 1 :=
  ⟨le_trans (by norm_num) (tenth_le_predictRiskScore f hw hc),
   predictRiskScore_le_one f⟩

/-- Witness for claim C2 at wait_time 300, issue "Unknown Category",
charge 500, status "Pending". -/
theorem predictRiskScore_bounds_witness :
    0 ≤ predictRiskScore ⟨300, "Unknown Category", 500, "Pending"⟩ ∧
    predictRiskScore ⟨300, "Unknown Category", 500, "Pending"⟩ ≤ 1 :=
  predictRiskScore_bounds ⟨300, "Unknown Category", 500, "Pending"⟩
    (by norm_num) (by norm_num)

theorem predictRiskScore_def (f : CallFeatures) :
    predictRiskScore f =
      min (0 + min (f.wait_time / 600) 1 * (3/10) + issueComponent f.issue_type
        + min (f.charge / 1000) 1 * (3/10) + statusComponent f.status) 1 := rfl

/-- Claim C3: the priority tier and the predicted action always correspond and
use strict thresholds: High / Priority Routing exactly when score > 0.7,
Medium / Offer Callback exactly when 0.4 < score <= 0.7, Low / Continue Queue
exactly when score <= 0.4; in particular 0.7 classifies as Medium / Offer
Callback and 0.4 as Low / Continue Queue. -/
theorem classification_thresholds (p : ℚ) :
    (priority p = "High" ↔ 7/10 < p) ∧
    (predicted_action p = "Priority Routing" ↔ 7/10 < p) ∧
    (priority p = "Medium" ↔ (4/10 < p ∧ p ≤ 7/10)) ∧
    (predicted_action p = "Offer Callback" ↔ (4/10 < p ∧ p ≤ 7/10)) ∧
    (priority p = "Low" ↔ p ≤ 4/10) ∧
    (predicted_action p = "Continue Queue" ↔ p ≤ 4/10) ∧
    priority (7/10) = "Medium" ∧ predicted_action (7/10) = "Offer Callback" ∧
    priority (4/10) = "Low" ∧ predicted_action (4/10) = "Continue Queue" := by
  have hHigh : priority p = "High" ↔ 7/10 < p := by
    unfold priority
    split_ifs with h1 h2
    · exact iff_of_true rfl h1
    · exact iff_of_false (by decide) h1
    · exact iff_of_false (by decide) h1
  have hRoute : predicted_action p = "Priority Routing" ↔ 7/10 < p := by
    unfold predicted_action
    split_ifs with h1 h2
    · exact iff_of_true rfl h1
    · exact iff_of_false (by decide) h1
    · exact iff_of_false (by decide) h1
  have hMed : priority p = "Medium" ↔ (4/10 < p ∧ p ≤ 7/10) := by
    unfold priority
    split_ifs with h1 h2
    · exact iff_of_false (by decide) (fun h => (not_le.mpr h1) h.2)
    · exact iff_of_true rfl ⟨h2, not_lt.mp h1⟩
    · exact iff_of_false (by decide) (fun h => h2 h.1)
  have hCall : predicted_action p = "Offer Callback" ↔ (4/10 < p ∧ p ≤ 7/10) := by
    unfold predicted_action
    split_ifs with h1 h2
    · exact iff_of_false (by decide) (fun h => (not_le.mpr h1) h.2)
    · exact iff_of_true rfl ⟨h2, not_lt.mp h1⟩
    · exact iff_of_false (by decide) (fun h => h2 h.1)
  have hLow : priority p = "Low" ↔ p ≤ 4/10 := by
    unfold priority
    split_ifs with h1 h2
    · exact iff_of_false (by decide) (fun h => (not_le.mpr (lt_trans (by norm_num) h1)) h)
    · exact iff_of_false (by decide) (fun h => (not_le.mpr h2) h)
    · exact iff_of_true rfl (not_lt.mp h2)
  have hQueue : predicted_action p = "Continue Queue" ↔ p ≤ 4/10 := by
    unfold predicted_action
    split_ifs with h1 h2
    · exact iff_of_false (by decide) (fun h => (not_le.mpr (lt_trans (by norm_num) h1)) h)
    · exact iff_of_false (by decide) (fun h => (not_le.mpr h2) h)
    · exact iff_of_true rfl (not_lt.mp h2)
  refine ⟨hHigh, hRoute, hMed, hCall, hLow, hQueue, ?_, ?_, ?_, ?_⟩ <;>
    norm_num [priority, predicted_action]

/-- Claim C4: holding issue_type, charge and status fixed, the score is
monotonically non-decreasing in wait_time on [0, 600] and identical for any
two wait_time values at or above 600. -/
theorem predictRiskScore_wait_mono (it st : String) (c w1 w2 : ℚ) :
    (0 ≤ w1 → w1 ≤ w2 → w2 ≤ 600 →
      predictRiskScore ⟨w1, it, c, st⟩ ≤ predictRiskScore ⟨w2, it, c, st⟩) ∧
    (600 ≤ w1 → 600 ≤ w2 →
      predictRiskScore ⟨w1, it, c, st⟩ = predictRiskScore ⟨w2, it, c, st⟩) := by
  constructor
  · intro _ h12 _
    rw [predictRiskScore_def, predictRiskScore_def]
    gcongr
  · intro h1 h2
    have e1 : min (w1 / 600) 1 = 1 :=
      min_eq_right ((le_div_iff₀ (by norm_num)).2 (by linarith))
    have e2 : min (w2 / 600) 1 = 1 :=
      min_eq_right ((le_div_iff₀ (by norm_num)).2 (by linarith))
    rw [predictRiskScore_def, predictRiskScore_def]
    rw [e1, e2]

/-- Witness for claim C4: monotone step 100 -> 200 seconds, and equal scores
at 700 and 900 seconds. -/
theorem predictRiskScore_wait_mono_witness :
    predictRiskScore ⟨100, "Billing", 50, "Waiting"⟩ ≤
      predictRiskScore ⟨200, "Billing", 50, "Waiting"⟩ ∧
    predictRiskScore ⟨700, "Billing", 50, "Waiting"⟩ =
      predictRiskScore ⟨900, "Billing", 50, "Waiting"⟩ :=
  ⟨(predictRiskScore_wait_mono "Billing" "Waiting" 50 100 200).1
      (by norm_num) (by norm_num) (by norm_num),
   (predictRiskScore_wait_mono "Billing" "Waiting" 50 700 900).2
      (by norm_num) (by norm_num)⟩

/-- Claim C5: holding wait_time, issue_type and status fixed, the score is
monotonically non-decreasing in charge on [0, 1000] and identical for any two
charge values at or above 1000. -/
theorem predictRiskScore_charge_mono (it st : String) (w c1 c2 : ℚ) :
    (0 ≤ c1 → c1 ≤ c2 → c2 ≤ 1000 →
      predictRiskScore ⟨w, it, c1, st⟩ ≤ predictRiskScore ⟨w, it, c2, st⟩) ∧
    (1000 ≤ c1 → 1000 ≤ c2 →
      predictRiskScore ⟨w, it, c1, st⟩ = predictRiskScore ⟨w, it, c2, st⟩) := by
  constructor
  · intro _ h12 _
    rw [predictRiskScore_def, predictRiskScore_def]
    gcongr
  · intro h1 h2
    have e1 : min (c1 / 1000) 1 = 1 :=
      min_eq_right ((le_div_iff₀ (by norm_num)).2 (by linarith))
    have e2 : min (c2 / 1000) 1 = 1 :=
      min_eq_right ((le_div_iff₀ (by norm_num)).2 (by linarith))
    rw [predictRiskScore_def, predictRiskScore_def]
    rw [e1, e2]

/-- Witness for claim C5: monotone step 100 -> 300 units, and equal scores at
charges 1200 and 5000. -/
theorem predictRiskScore_charge_mono_witness :
    predictRiskScore ⟨60, "Billing", 100, "Waiting"⟩ ≤
      predictRiskScore ⟨60, "Billing", 300, "Waiting"⟩ ∧
    predictRiskScore ⟨60, "Billing", 1200, "Waiting"⟩ =
      predictRiskScore ⟨60, "Billing", 5000, "Waiting"⟩ :=
  ⟨(predictRiskScore_charge_mono "Billing" "Waiting" 60 100 300).1
      (by norm_num) (by norm_num) (by norm_num),
   (predictRiskScore_charge_mono "Billing" "Waiting" 60 1200 5000).2
      (by norm_num) (by norm_num)⟩

/-- Claim C6: all else equal, score with status Denied >= score with Pending
>= score with any other status; the contributions are exactly 0.3, 0.1 and
0.0, and any two statuses outside the special pair give equal scores. -/
theorem predictRiskScore_status_order (w : ℚ) (it : String) (c : ℚ) (s : String)
    (h1 : s ≠ "Denied") (h2 : s ≠ "Pending") :
    predictRiskScore ⟨w, it, c, "Pending"⟩ ≤ predictRiskScore ⟨w, it, c, "Denied"⟩ ∧
    predictRiskScore ⟨w, it, c, s⟩ ≤ predictRiskScore ⟨w, it, c, "Pending"⟩ ∧
    statusComponent "Denied" = 3/10 ∧ statusComponent "Pending" = 1/10 ∧
    statusComponent s = 0 ∧
    ∀ t : String, t ≠ "Denied" → t ≠ "Pending" →
      predictRiskScore ⟨w, it, c, s⟩ = predictRiskScore ⟨w, it, c, t⟩ := by
  have hs : statusComponent s = 0 := by
    unfold statusComponent
    rw [if_neg h1, if_neg h2]
  have hd : statusComponent "Denied" = 3/10 := rfl
  have hp : statusComponent "Pending" = 1/10 := rfl
  refine ⟨?_, ?_, hd, hp, hs, ?_⟩
  · rw [predictRiskScore_def, predictRiskScore_def]
    dsimp only
    rw [hd, hp]
    gcongr
    norm_num
  · rw [predictRiskScore_def, predictRiskScore_def]
    dsimp only
    rw [hs, hp]
    gcongr
    norm_num
  · intro t ht1 ht2
    have ht : statusComponent t = 0 := by
      unfold statusComponent
      rw [if_neg ht1, if_neg ht2]
    rw [predictRiskScore_def, predictRiskScore_def]
    dsimp only
    rw [hs, ht]

/-- Witness for claim C6 at wait 300, issue "Billing", charge 500 and the
non-special status "Approved". -/
theorem predictRiskScore_status_order_witness :
    predictRiskScore ⟨300, "Billing", 500, "Pending"⟩ ≤
      predictRiskScore ⟨300, "Billing", 500, "Denied"⟩ ∧
    statusComponent "Approved" = 0 :=
  ⟨(predictRiskScore_status_order 300 "Billing" 500 "Approved"
      (by decide) (by decide)).1,
   (predictRiskScore_status_order 300 "Billing" 500 "Approved"
      (by decide) (by decide)).2.2.2.2.1⟩

/-- Claim C7: predictRiskScore is total (it is a Lean function, defined on
every input, with no error return): an issue_type absent from the weight
table yields the same score as an explicit issue weight of 0.1, and an
unrecognized status contributes 0 to the score. -/
theorem predictRiskScore_total_defaults (f : CallFeatures) :
    (issueTypeWeights f.issue_type = none →
      predictRiskScore f = scoreWithIssueWeight (1/10) f) ∧
    (f.status ≠ "Denied" → f.status ≠ "Pending" → statusComponent f.status = 0) := by
  constructor
  · intro h
    rw [predictRiskScore_def]
    unfold scoreWithIssueWeight issueComponent
    rw [h]
    ring_nf
  · intro h1 h2
    unfold statusComponent
    rw [if_neg h1, if_neg h2]

/-- Witness for claim C7 at the unlisted issue type "Unknown Category" and
the non-special status "Submitted". -/
theorem predictRiskScore_total_defaults_witness :
    predictRiskScore ⟨300, "Unknown Category", 500, "Submitted"⟩ =
      scoreWithIssueWeight (1/10) ⟨300, "Unknown Category", 500, "Submitted"⟩ ∧
    statusComponent "Submitted" = 0 :=
  ⟨(predictRiskScore_total_defaults ⟨300, "Unknown Category", 500, "Submitted"⟩).1 rfl,
   (predictRiskScore_total_defaults ⟨300, "Unknown Category", 500, "Submitted"⟩).2
      (by decide) (by decide)⟩

/-- Claim C8: the concrete input with wait 300, issue "Unknown Category",
charge 500 and status "Pending" scores exactly 0.5 and classifies as
priority Medium with action "Offer Callback". -/
theorem scenario_unknown_pending :
    predictRiskScore ⟨300, "Unknown Category", 500, "Pending"⟩ = 1/2 ∧
    priority (predictRiskScore ⟨300, "Unknown Category", 500, "Pending"⟩) = "Medium" ∧
    predicted_action (predictRiskScore ⟨300, "Unknown Category", 500, "Pending"⟩) =
      "Offer Callback" := by
  have hi : issueComponent "Unknown Category" = 1/10 := rfl
  have hst : statusComponent "Pending" = 1/10 := rfl
  have h : predictRiskScore ⟨300, "Unknown Category", 500, "Pending"⟩ = 1/2 := by
    rw [predictRiskScore_def]
    dsimp only
    rw [hi, hst]
    norm_num [min_def]
  refine ⟨h, ?_, ?_⟩ <;> rw [h] <;> norm_num [priority, predicted_action]

/-- Claim C9: no lower clamp and no input validation: a negative wait_time
can drive the returned score strictly below 0. -/
theorem negative_wait_scores_below_zero :
    ∃ f : CallFeatures, f.wait_time < 0 ∧ predictRiskScore f < 0 := by
  refine ⟨⟨-6000, "Billing", 0, "Paid"⟩, by norm_num, ?_⟩
  have hi : issueComponent "Billing" = 1/10 := rfl
  have hst : statusComponent "Paid" = 0 := rfl
  rw [predictRiskScore_def]
  dsimp only
  rw [hi, hst]
  norm_num [min_def]

/-- Claim C10: every issue weight, listed or defaulted, is at least 0.1, so
for non-negative wait_time and charge the score never reaches 0: it lies in
the effective range [0.1, 1]. -/
theorem predictRiskScore_effective_range (f : CallFeatures)
    (hw : 0 ≤ f.wait_time) (hc : 0 ≤ f.charge) :
    (∀ s : String, 1/10 ≤ issueComponent s) ∧
    1/10 ≤ predictRiskScore f ∧ predictRiskScore f ≤ 1 :=
  ⟨issueComponent_ge_tenth, tenth_le_predictRiskScore f hw hc,
   predictRiskScore_le_one f⟩

/-- Witness for claim C10 at wait 0, issue "Bill Payment Query", charge 0,
status "Paid". -/
theorem predictRiskScore_effective_range_witness :
    1/10 ≤ predictRiskScore ⟨0, "Bill Payment Query", 0, "Paid"⟩ ∧
    predictRiskScore ⟨0, "Bill Payment Query", 0, "Paid"⟩ ≤ 1 :=
  ⟨(predictRiskScore_effective_range ⟨0, "Bill Payment Query", 0, "Paid"⟩
      (by norm_num) (by norm_num)).2.1,
   (predictRiskScore_effective_range ⟨0, "Bill Payment Query", 0, "Paid"⟩
      (by norm_num) (by norm_num)).2.2⟩
